import Mathlib

/-!
Verification of the Market Relationship & Arbitrage Analysis Engine
(backend of the hacknation2025 repository).

Shallow embedding conventions:
* Python floats are modelled as exact rationals (`ℚ`) wherever the code only
  performs field arithmetic and comparisons; where the code calls
  transcendental functions (`math.log`, `math.sqrt`, `np.log1p`,
  `math.log10`) the values live in `ℝ` and the functions are `Real.log`,
  `Real.sqrt`, `Real.logb`.
* Python decimal literals (`0.3`, `0.001`, …) are read as the exact rationals
  they denote in the source text.
* `round(x, n)` is modelled as `round (x * 10^n) / 10^n` (round half up;
  Python uses round-half-even, which differs only at exact midpoints — no
  claim below depends on a midpoint).
* Fallible paths (`None` in Python) become `Option`; external calls that may
  raise become `Except Unit`.
-/

namespace MarketAnalysis

/-! ## ExpectedValueEngine — `app/utils/market_analysis.py`,
`_calculate_expected_values`.

The engine consumes two first-outcome prices (`market_p1`, `market_p2`,
already defaulted to `0.5` upstream when a price list is empty) and a
correlation scalar, all pure rational arithmetic. -/

/-- The five betting strategies, in the fixed iteration order of the
`strategies` dict in the source. -/
inductive Strategy where
  | yesEvent1
  | yesEvent2
  | noEvent1
  | noEvent2
  | arbitrage
  deriving DecidableEq, Repr

/-- The Python dict key used for each strategy. -/
def Strategy.label : Strategy → String
  | .yesEvent1 => "Bet YES on Event 1"
  | .yesEvent2 => "Bet YES on Event 2"
  | .noEvent1 => "Bet NO on Event 1"
  | .noEvent2 => "Bet NO on Event 2"
  | .arbitrage => "Arbitrage (opposite sides)"

/-- Correlation-adjusted joint probability before clamping
(lines 65–75 of `market_analysis.py`). -/
def pBothRaw (p1 p2 c : ℚ) : ℚ :=
  if 4/5 < c then
    if 1 < p1 + p2 then min p1 p2 * (1 - c)
    else p1 * p2 * (1 + c)
  else p1 * p2 * (1 + c * (1/2))

/-- `p_both = max(0, min(p_both, min(market_p1, market_p2)))` (line 78). -/
def pBothClamped (p1 p2 c : ℚ) : ℚ :=
  max 0 (min (pBothRaw p1 p2 c) (min p1 p2))

/-- The four mutually exclusive scenario probabilities. -/
structure ScenarioProbs where
  pBoth : ℚ
  p1Only : ℚ
  p2Only : ℚ
  pNeither : ℚ
  deriving DecidableEq, Repr

def ScenarioProbs.sum (s : ScenarioProbs) : ℚ :=
  s.pBoth + s.p1Only + s.p2Only + s.pNeither

/-- Scenario probabilities with flooring and conditional renormalization
(lines 80–96): `p_neither` is derived from the *unfloored* `p_1_only`,
`p_2_only`; all three are then floored at 0; the four values are rescaled
only when `total > 0 and abs(total - 1.0) > 0.001`. -/
def scenarioProbs (p1 p2 c : ℚ) : ScenarioProbs :=
  let pb := pBothClamped p1 p2 c
  let p1o0 := p1 - pb
  let p2o0 := p2 - pb
  let pn0 := 1 - pb - p1o0 - p2o0
  let p1o := max 0 p1o0
  let p2o := max 0 p2o0
  let pn := max 0 pn0
  let total := pb + p1o + p2o + pn
  if 0 < total ∧ 1/1000 < |total - 1| then
    ⟨pb / total, p1o / total, p2o / total, pn / total⟩
  else
    ⟨pb, p1o, p2o, pn⟩

/-- All five strategy expected values (lines 105–141). -/
structure ExpectedValues where
  evYesEvent1 : ℚ
  evYesEvent2 : ℚ
  evNoEvent1 : ℚ
  evNoEvent2 : ℚ
  evArbitrage : ℚ
  deriving DecidableEq, Repr

def expectedValues (p1 p2 c : ℚ) : ExpectedValues :=
  let s := scenarioProbs p1 p2 c
  let trueP1 := s.pBoth + s.p1Only
  let trueP2 := s.pBoth + s.p2Only
  let evYes1 := if 0 < p1 then trueP1 * 1 - p1 else 0
  let evYes2 := if 0 < p2 then trueP2 * 1 - p2 else 0
  let trueNotP1 := s.p2Only + s.pNeither
  let evNo1 := if p1 < 1 then trueNotP1 * 1 - (1 - p1) else 0
  let trueNotP2 := s.p1Only + s.pNeither
  let evNo2 := if p2 < 1 then trueNotP2 * 1 - (1 - p2) else 0
  let evArb :=
    if 7/10 < c ∧ 3/20 < |p1 - p2| then
      if p2 < p1 then 1 - ((1 - p1) + p2)
      else 1 - (p1 + (1 - p2))
    else 0
  ⟨evYes1, evYes2, evNo1, evNo2, evArb⟩

/-- The ordered strategy/EV association built at lines 164–170. -/
def strategyList (p1 p2 c : ℚ) : List (Strategy × ℚ) :=
  let e := expectedValues p1 p2 c
  [(.yesEvent1, e.evYesEvent1), (.yesEvent2, e.evYesEvent2),
   (.noEvent1, e.evNoEvent1), (.noEvent2, e.evNoEvent2),
   (.arbitrage, e.evArbitrage)]

/-- Python's `max(items, key=...)`: scans left to right, replacing the
current best only on a strictly larger key, so ties keep the earlier
entry. -/
def pickBest (x : Strategy × ℚ) (xs : List (Strategy × ℚ)) : Strategy × ℚ :=
  xs.foldl (fun acc y => if acc.2 < y.2 then y else acc) x

/-- `best = max(strategies.items(), key=lambda x: x[1])` (line 173). -/
def bestStrategy (p1 p2 c : ℚ) : Strategy × ℚ :=
  pickBest (.yesEvent1, (expectedValues p1 p2 c).evYesEvent1)
    (strategyList p1 p2 c).tail

end MarketAnalysis

namespace RelationService

/-! ## RelationService — `app/services/relation_service.py`.

`database_service`, `vector_service` and the pydantic schemas are not part
of the analysed sources; they are the external collaborators of spec §6 and
are modelled as abstract environment functions below. -/

/-- The fields of `market_schema.Market` that the relation pipeline reads.
Outcome prices are modelled as the parsed numeric values (the source parses
price strings with `float(p)`, dropping falsy entries; unparsable strings —
whose only effect is a caught `ValueError` yielding correlation `0.0` — are
outside the model). -/
structure Market where
  outcome_prices : List ℚ
  volume : Option ℚ
  deriving Repr

/-- `calculate_correlation` (lines 245–287): first-outcome price distance
proxy, `0.0` without at least two prices on both sides. -/
def calculate_correlation (market1 market2 : Market) : ℚ :=
  if market1.outcome_prices = [] ∨ market2.outcome_prices = [] then 0
  else
    let prices1 := market1.outcome_prices
    let prices2 := market2.outcome_prices
    if prices1.length < 2 ∨ prices2.length < 2 then 0
    else
      let price1 := prices1.headD 0
      let price2 := prices2.headD 0
      let price_diff := |price1 - price2|
      let correlation := 1 - min price_diff 1
      max 0 (min 1 correlation)

/-- `np.log1p`-based volume factor of `calculate_pressure`
(lines 313–327). -/
noncomputable def volumeFactor (avg_volume : ℚ) : ℝ :=
  if avg_volume ≤ 0 then 1/10
  else
    let max_volume_ref : ℝ := 1000000
    max (1/10) (min 1 (Real.log (1 + (avg_volume : ℝ)) / Real.log (1 + max_volume_ref)))

/-- `calculate_pressure` (lines 289–334):
`similarity * correlation * volume_factor`, clamped to `[0, 1]`. -/
noncomputable def calculate_pressure
    (similarity correlation : ℝ) (volume1 volume2 : ℚ) : ℝ :=
  let avg_volume := (volume1 + volume2) / 2
  let pressure := similarity * correlation * volumeFactor avg_volume
  max 0 (min 1 pressure)

/-- A persisted `market_relations` row. -/
structure Row where
  market_id_1 : ℕ
  market_id_2 : ℕ
  similarity : ℚ
  correlation : ℚ
  pressure : ℝ

/-- The relation store, modelling the `market_relations` table. -/
abbrev Store := List Row

def Row.keyMatches (r : Row) (k1 k2 : ℕ) : Bool :=
  r.market_id_1 = k1 ∧ r.market_id_2 = k2

/-- Supabase `upsert(..., on_conflict='market_id_1,market_id_2')`: replace
the row with the conflicting key if one exists, insert otherwise. -/
def upsertRow (store : Store) (r : Row) : Store :=
  if store.any (·.keyMatches r.market_id_1 r.market_id_2) then
    store.map (fun x => if x.keyMatches r.market_id_1 r.market_id_2 then r else x)
  else
    store ++ [r]

/-- `create_relation` (lines 102–148): normalize to the canonical
`(min, max)` key, then upsert. -/
def create_relation (store : Store) (market_id_1 market_id_2 : ℕ)
    (similarity correlation : ℚ) (pressure : ℝ) : Store :=
  upsertRow store
    ⟨min market_id_1 market_id_2, max market_id_1 market_id_2,
     similarity, correlation, pressure⟩

/-- Number of stored rows carrying a given key. -/
def countKey (store : Store) (k1 k2 : ℕ) : ℕ :=
  store.countP (·.keyMatches k1 k2)

/-- Rows touching a market, as `get_related_markets` reads them:
either endpoint equals `market_id` and `similarity ≥ min_similarity`. -/
def touching (store : Store) (market_id : ℕ) (min_similarity : ℚ) : Store :=
  store.filter (fun r =>
    (r.market_id_1 = market_id ∨ r.market_id_2 = market_id) ∧
      min_similarity ≤ r.similarity)

/-- Insertion sort by descending similarity, modelling the store's
`order('similarity', desc=True)`. -/
def insertBySim (r : Row) : Store → Store
  | [] => [r]
  | x :: xs => if x.similarity ≤ r.similarity then r :: x :: xs
               else x :: insertBySim r xs

def sortBySimDesc : Store → Store
  | [] => []
  | x :: xs => insertBySim x (sortBySimDesc xs)

/-- `get_related_markets` (lines 29–75): query relations touching
`market_id` above `min_similarity`, order by similarity descending, take
`limit`, and return `(other_id, similarity, correlation, pressure)`. -/
def get_related_markets (store : Store) (market_id : ℕ) (limit : ℕ)
    (min_similarity : ℚ) : List (ℕ × ℚ × ℚ × ℝ) :=
  ((sortBySimDesc (touching store market_id min_similarity)).take limit).map
    (fun r =>
      (if r.market_id_1 = market_id then r.market_id_2 else r.market_id_1,
       r.similarity, r.correlation, r.pressure))

/-- A queued `MarketRelationCreate` request. -/
structure RowCreate where
  market_id_1 : ℕ
  market_id_2 : ℕ
  similarity : ℚ
  correlation : ℚ
  pressure : ℝ

/-- `create_relations_batch` (lines 150–184): each item is created through
`create_relation`; per-item exceptions are counted as failed. The store
model has no failing upserts, so every item succeeds. Returns the new store
with `(created, failed)`. -/
def create_relations_batch (store : Store) (relations : List RowCreate) :
    Store × ℕ × ℕ :=
  relations.foldl
    (fun acc rel =>
      (create_relation acc.1 rel.market_id_1 rel.market_id_2
        rel.similarity rel.correlation rel.pressure,
       acc.2.1 + 1, acc.2.2))
    (store, 0, 0)

/-- External collaborators of the discovery pipeline (spec §6): the market
store's `get_market_by_id` and the vector similarity service consumed by
`find_similar_markets_for_relation`, as `(market_id, limit)`-indexed
results. -/
structure Env where
  getMarketById : ℕ → Option Market
  findSimilar : ℕ → ℕ → List (ℕ × ℚ)

/-- `find_similar_markets_for_relation` (lines 338–364): vector-service
results filtered by the similarity threshold (service errors are caught and
yield `[]`; the error case is modelled in `FEnv` below). -/
def find_similar_markets_for_relation (env : Env) (market_id : ℕ)
    (similarity_threshold : ℚ) (limit : ℕ) : List (ℕ × ℚ) :=
  (env.findSimilar market_id limit).filter
    (fun x => similarity_threshold ≤ x.2)

/-- State of the candidate loop of `create_relations_for_market`
(lines 409–452): accumulated `skipped` count and queued creations. -/
noncomputable def candidateStep (env : Env) (market : Market) (market_id : ℕ)
    (correlation_threshold : ℚ) (acc : ℕ × List RowCreate)
    (existing_market_ids : List ℕ) (cand : ℕ × ℚ) : ℕ × List RowCreate :=
  let (similar_market_id, similarity) := cand
  if similar_market_id ∈ existing_market_ids then (acc.1 + 1, acc.2)
  else if similar_market_id = market_id then acc
  else
    match env.getMarketById similar_market_id with
    | none => acc
    | some similar_market =>
      let correlation := calculate_correlation market similar_market
      if correlation < correlation_threshold then (acc.1 + 1, acc.2)
      else
        let pressure := calculate_pressure (similarity : ℝ) (correlation : ℝ)
          (market.volume.getD 0) (similar_market.volume.getD 0)
        (acc.1,
         acc.2 ++ [⟨market_id, similar_market_id, similarity, correlation,
                    pressure⟩])

/-- `create_relations_for_market` (lines 366–464), with the store threaded
explicitly. Returns `(store', created, skipped)`. -/
noncomputable def create_relations_for_market (env : Env) (store : Store)
    (market_id : ℕ) (similarity_threshold correlation_threshold : ℚ)
    (limit : ℕ) : Store × ℕ × ℕ :=
  match env.getMarketById market_id with
  | none => (store, 0, 0)
  | some market =>
    let similar_markets :=
      find_similar_markets_for_relation env market_id similarity_threshold
        limit
    if similar_markets = [] then (store, 0, 0)
    else
      let existing_market_ids :=
        (get_related_markets store market_id 1000 0).map (·.1)
      let loop := similar_markets.foldl
        (fun acc cand =>
          candidateStep env market market_id correlation_threshold acc
            existing_market_ids cand)
        (0, [])
      let skipped := loop.1
      let relations_to_create := loop.2
      if relations_to_create.isEmpty then (store, 0, skipped)
      else
        let batch := create_relations_batch store relations_to_create
        (batch.1, batch.2.1, skipped + batch.2.2)

/-- A full (non-sampled) pass of the relation-creation logic over a market
list: `create_relations_for_market` per market, threading the store and
accumulating totals — the spec's batch driver without the cosmetic
batching. Returns `(store', created, skipped)`. -/
noncomputable def fullPass (env : Env) (store : Store) (market_ids : List ℕ)
    (similarity_threshold correlation_threshold : ℚ) (limit : ℕ) :
    Store × ℕ × ℕ :=
  market_ids.foldl
    (fun acc market_id =>
      let r := create_relations_for_market env acc.1 market_id
        similarity_threshold correlation_threshold limit
      (r.1, acc.2.1 + r.2.1, acc.2.2 + r.2.2))
    (store, 0, 0)

/-- Result record of `estimate_relations_count` (lines 560–567). -/
structure EstimateResult where
  estimated_total : ℤ
  sampled_markets : ℕ
  total_markets : ℕ
  relations_per_market : ℚ
  sample_relations : ℕ
  is_sampled : Bool
  deriving Repr, DecidableEq

/-- `round(x, 2)` on the diagnostic average (round half up; the source's
round-half-even differs only at exact midpoints). -/
def round2 (q : ℚ) : ℚ := (round (q * 100) : ℤ) / 100

/-- Per-market candidate count of the estimation loop (lines 521–543):
candidates that are not already related, not the market itself, resolvable,
and whose correlation meets the threshold. -/
def potentialRelations (env : Env) (store : Store) (market : Market)
    (market_id : ℕ) (correlation_threshold : ℚ)
    (similar_markets : List (ℕ × ℚ)) : ℕ :=
  let existing_market_ids :=
    (get_related_markets store market_id 1000 0).map (·.1)
  (similar_markets.filter (fun cand =>
    !existing_market_ids.contains cand.1 && cand.1 != market_id &&
    match env.getMarketById cand.1 with
    | none => false
    | some similar_market =>
      decide (correlation_threshold ≤
        calculate_correlation market similar_market))).length

/-- The estimation loop of `estimate_relations_count` (lines 500–550):
accumulates `(total_relations, markets_processed)`; unresolvable markets
and markets with no candidates are skipped without counting as
processed. -/
def estimateScan (env : Env) (store : Store)
    (similarity_threshold correlation_threshold : ℚ) (ids : List ℕ) :
    ℕ × ℕ :=
  ids.foldl
    (fun (acc : ℕ × ℕ) market_id =>
      match env.getMarketById market_id with
      | none => acc
      | some market =>
        let similar_markets :=
          find_similar_markets_for_relation env market_id
            similarity_threshold 100
        if similar_markets = [] then acc
        else
          (acc.1 + potentialRelations env store market market_id
            correlation_threshold similar_markets,
           acc.2 + 1))
    (0, 0)

/-- `estimate_relations_count` (lines 466–579). `sampler` abstracts
`random.sample`; it is consulted only when `sample_size` is truthy and
smaller than the market count. `int(...)` truncation is `Int.floor`
(the truncated value is non-negative here). -/
def estimate_relations_count (env : Env) (store : Store)
    (market_ids : List ℕ) (similarity_threshold correlation_threshold : ℚ)
    (sample_size : Option ℕ) (sampler : List ℕ → ℕ → List ℕ) :
    EstimateResult :=
  let markets_to_sample :=
    match sample_size with
    | some n => if n ≠ 0 ∧ n < market_ids.length
                then sampler market_ids (min n market_ids.length)
                else market_ids
    | none => market_ids
  let scan := estimateScan env store similarity_threshold
    correlation_threshold markets_to_sample
  let total_relations : ℕ := scan.1
  let markets_processed : ℕ := scan.2
  let avg : ℚ := if 0 < markets_processed
    then (total_relations : ℚ) / (markets_processed : ℚ) else 0
  let estimated_total : ℤ := if 0 < markets_processed
    then ⌊avg * (market_ids.length : ℚ)⌋ else 0
  { estimated_total := estimated_total
    sampled_markets := markets_processed
    total_markets := market_ids.length
    relations_per_market := round2 avg
    sample_relations := total_relations
    is_sampled :=
      match sample_size with
      | some n => decide (n < market_ids.length)
      | none => false }

end RelationService

namespace RelationService

/-! ### Failure-aware model of the discovery pipeline (for the exception
path of `create_relations_for_market`).

External calls are `await`ed network/database operations and may raise;
`Except Unit` models an escaping exception. Store mutations happen only
inside `create_relations_batch`, whose per-item `try/except` converts an
upsert failure into a `failed` count, so no mutation can precede an
escaping exception and the store at the `except` handler equals the input
store. -/

structure FEnv where
  /-- `db.get_market_by_id` — may raise. -/
  getMarketById : ℕ → Except Unit (Option Market)
  /-- raw `vector_service.find_similar_to_market` — may raise (the caller
  catches it). -/
  findSimilar : ℕ → ℕ → Except Unit (List (ℕ × ℚ))
  /-- whether the relation-store query of `get_related_markets` raises for
  a given market id (its `except` clause re-raises, lines 73–75). -/
  relatedQueryFails : ℕ → Bool
  /-- whether the upsert of `create_relation` fails for a given canonical
  pair (raises inside the batch, where it is caught per item). -/
  upsertFails : ℕ → ℕ → Bool

/-- `find_similar_markets_for_relation` with its own `except` clause:
a service error yields `[]` (lines 362–364). -/
def find_similar_markets_for_relationF (fenv : FEnv) (market_id : ℕ)
    (similarity_threshold : ℚ) (limit : ℕ) : List (ℕ × ℚ) :=
  match fenv.findSimilar market_id limit with
  | .ok results => results.filter (fun x => similarity_threshold ≤ x.2)
  | .error _ => []

/-- `get_related_markets` with a possibly-raising store query. -/
def get_related_marketsF (fenv : FEnv) (store : Store) (market_id : ℕ)
    (limit : ℕ) (min_similarity : ℚ) :
    Except Unit (List (ℕ × ℚ × ℚ × ℝ)) :=
  if fenv.relatedQueryFails market_id then .error ()
  else .ok (get_related_markets store market_id limit min_similarity)

/-- `create_relations_batch` with per-pair upsert failures, each caught and
counted as failed. -/
def create_relations_batchF (fenv : FEnv) (store : Store)
    (relations : List RowCreate) : Store × ℕ × ℕ :=
  relations.foldl
    (fun acc rel =>
      if fenv.upsertFails (min rel.market_id_1 rel.market_id_2)
          (max rel.market_id_1 rel.market_id_2) then
        (acc.1, acc.2.1, acc.2.2 + 1)
      else
        (create_relation acc.1 rel.market_id_1 rel.market_id_2
          rel.similarity rel.correlation rel.pressure,
         acc.2.1 + 1, acc.2.2))
    (store, 0, 0)

/-- The candidate loop body, in `Except` because each
`db.get_market_by_id` call may raise. -/
noncomputable def candidateStepF (fenv : FEnv) (market : Market)
    (market_id : ℕ) (correlation_threshold : ℚ)
    (existing_market_ids : List ℕ) (acc : ℕ × List RowCreate)
    (cand : ℕ × ℚ) : Except Unit (ℕ × List RowCreate) := do
  let (similar_market_id, similarity) := cand
  if similar_market_id ∈ existing_market_ids then
    return (acc.1 + 1, acc.2)
  else if similar_market_id = market_id then
    return acc
  else
    match ← fenv.getMarketById similar_market_id with
    | none => return acc
    | some similar_market =>
      let correlation := calculate_correlation market similar_market
      if correlation < correlation_threshold then
        return (acc.1 + 1, acc.2)
      else
        let pressure := calculate_pressure (similarity : ℝ) (correlation : ℝ)
          (market.volume.getD 0) (similar_market.volume.getD 0)
        return (acc.1,
          acc.2 ++ [⟨market_id, similar_market_id, similarity, correlation,
                     pressure⟩])

/-- The body of the `try` block of `create_relations_for_market`
(lines 388–460), returning the new store and `(created, skipped)`, or the
escaping exception. -/
noncomputable def discoverBody (fenv : FEnv) (store : Store) (market_id : ℕ)
    (similarity_threshold correlation_threshold : ℚ) (limit : ℕ) :
    Except Unit (Store × ℕ × ℕ) := do
  match ← fenv.getMarketById market_id with
  | none => return (store, 0, 0)
  | some market =>
    let similar_markets :=
      find_similar_markets_for_relationF fenv market_id
        similarity_threshold limit
    if similar_markets = [] then return (store, 0, 0)
    else
      let existing_relations ← get_related_marketsF fenv store market_id 1000 0
      let existing_market_ids := existing_relations.map (·.1)
      let loop ← similar_markets.foldlM
        (candidateStepF fenv market market_id correlation_threshold
          existing_market_ids)
        ((0 : ℕ), ([] : List RowCreate))
      if loop.2.isEmpty then return (store, 0, loop.1)
      else
        let batch := create_relations_batchF fenv store loop.2
        return (batch.1, batch.2.1, loop.1 + batch.2.2)

/-- `create_relations_for_market` with its outer `except` clause
(lines 462–464): any escaping exception yields `(0, 0)`; the store is the
one at the moment of the exception (provably the input store, since no
mutation precedes an escape). -/
noncomputable def create_relations_for_marketF (fenv : FEnv) (store : Store)
    (market_id : ℕ) (similarity_threshold correlation_threshold : ℚ)
    (limit : ℕ) : Store × ℕ × ℕ :=
  match discoverBody fenv store market_id similarity_threshold
      correlation_threshold limit with
  | .ok r => r
  | .error _ => (store, 0, 0)

end RelationService

namespace Polymarket

/-! ## RateLimiter and volatility calculator —
`app/data_retrieval/polymarket_api_enhanced.py`. -/

/-- The eviction loop of `acquire` (lines 31–32): pop timestamps strictly
older than `now - time_window` from the front of the queue. -/
def evict (time_window now : ℚ) : List ℚ → List ℚ
  | [] => []
  | t :: rest => if t < now - time_window then evict time_window now rest
                 else t :: rest

/-- Deterministic single-task model of `RateLimiter.acquire`
(lines 26–43). Time is rational wall-clock time; `eps ≥ 0` is the extra
delay with which `asyncio.sleep` wakes up (`0` = ideally punctual).
`fuel` bounds the retry recursion; `none` means either fuel ran out or the
Python code would fault (`requests[0]` on an empty queue, only possible
with `max_requests = 0`). On `some (queue, t)` the call returned at time
`t` with recorded queue `queue` (the new request appended at `t`). -/
def acquireAux (max_requests : ℕ) (time_window eps : ℚ) :
    ℕ → List ℚ → ℚ → Option (List ℚ × ℚ)
  | 0, _, _ => none
  | fuel + 1, requests, now =>
    let r := evict time_window now requests
    if max_requests ≤ r.length then
      match r with
      | [] => none
      | t0 :: _ =>
        let sleep_time := time_window - (now - t0)
        if 0 < sleep_time then
          acquireAux max_requests time_window eps fuel r
            (now + sleep_time + eps)
        else some (r ++ [now], now)
    else some (r ++ [now], now)

/-- Recorded requests whose timestamps lie within the trailing
`time_window` of `now` (age at most `time_window` — the complement of the
eviction predicate `t < now - time_window`). -/
def countWindow (time_window now : ℚ) (requests : List ℚ) : ℕ :=
  (requests.filter (fun t => decide (now - time_window ≤ t))).length

/-- Outcome of the CLOB price-history fetch consumed by
`calculate_true_volatility_24h`: a history list (each entry optionally
carrying a `price` field), HTTP 404, another HTTP status error, or any
other exception. -/
inductive FetchResult where
  | ok (history : List (Option ℚ))
  | notFound
  | httpError
  | failure

/-- `round(x, 4)`. -/
noncomputable def round4 (x : ℝ) : ℝ := (round (x * 10000) : ℤ) / 10000

/-- Consecutive price pairs with both prices positive — the pairs for
which the loop at lines 102–106 records a log return. -/
def logReturnPairs (prices : List ℚ) : List (ℚ × ℚ) :=
  (prices.zip prices.tail).filter
    (fun pq => decide (0 < pq.1) && decide (0 < pq.2))

/-- `calculate_true_volatility_24h` (lines 58–152) as a function of the
fetch outcome. Returns `(volatility_score, method)`; the diagnostic
`metadata` mapping is omitted (no claim reads it). -/
noncomputable def calculate_true_volatility_24h (fetch : FetchResult) :
    Option ℝ × String :=
  match fetch with
  | .notFound => (none, "not_found")
  | .httpError => (none, "http_error")
  | .failure => (none, "error")
  | .ok history =>
    if history.length < 2 then (none, "insufficient_data")
    else
      let prices := history.filterMap id
      if prices.length < 2 then (none, "insufficient_data")
      else
        let log_returns : List ℝ := (logReturnPairs prices).map
          (fun pq => Real.log ((pq.2 : ℝ) / (pq.1 : ℝ)))
        if log_returns.isEmpty then (none, "no_valid_returns")
        else
          let n : ℝ := log_returns.length
          let mean_return := log_returns.sum / n
          let variance :=
            (log_returns.map (fun r => (r - mean_return) ^ 2)).sum / n
          let volatility_raw := Real.sqrt variance
          let normalized_volatility := min (volatility_raw / (3/10)) 1
          (some (round4 normalized_volatility), "price_history")

/-- Python's `a or b` on two optional numeric dict lookups: `None` and
`0.0` are falsy. -/
def pyOr (a b : Option ℚ) : Option ℚ :=
  match a with
  | some x => if x = 0 then b else some x
  | none => b

/-- The market dict fields read by the two pure volatility methods.
Camel/snake pairs model the double key lookup `market.get("oneDayPriceChange")
or market.get("one_day_price_change")` (and likewise for the other change
fields and the outcome-price list). `endDate` abstracts the two-key lookup
and the ISO-8601/epoch parsing of lines 262–274 to its result:
`none` = absent/falsy, `some none` = present but unparsable (time factor
defaults to `0.5`), `some (some d)` = parses to `d` days until close. -/
structure VolMarket where
  outcomePricesCamel : List ℚ := []
  outcomePricesSnake : List ℚ := []
  volume : ℚ := 0
  endDate : Option (Option ℚ) := none
  oneDayCamel : Option ℚ := none
  oneDaySnake : Option ℚ := none
  oneWeekCamel : Option ℚ := none
  oneWeekSnake : Option ℚ := none
  oneMonthCamel : Option ℚ := none
  oneMonthSnake : Option ℚ := none

/-- `calculate_volatility_from_price_changes` (lines 154–223):
24h change preferred unscaled, else 7d scaled by `1/sqrt(7)`, else 30d
scaled by `1/sqrt(30)`, all normalized by the `0.3` ceiling; `None` when
no change field is usable. The `except` clause (possible only for
non-numeric field values, outside this pre-parsed model) would return
`(none, "error")`. Metadata omitted. -/
noncomputable def calculate_volatility_from_price_changes
    (market : VolMarket) : Option ℝ × String :=
  match pyOr market.oneDayCamel market.oneDaySnake with
  | some one_day_change =>
    let abs_change := |one_day_change|
    let volatility := min ((abs_change : ℝ) / (3/10)) 1
    (some (round4 volatility), "price_change_24h")
  | none =>
    match pyOr market.oneWeekCamel market.oneWeekSnake with
    | some one_week_change =>
      let abs_change := |one_week_change|
      let scaled_change := (abs_change : ℝ) / Real.sqrt 7
      let volatility := min (scaled_change / (3/10)) 1
      (some (round4 volatility), "price_change_7d_scaled")
    | none =>
      match pyOr market.oneMonthCamel market.oneMonthSnake with
      | some one_month_change =>
        let abs_change := |one_month_change|
        let scaled_change := (abs_change : ℝ) / Real.sqrt 30
        let volatility := min (scaled_change / (3/10)) 1
        (some (round4 volatility), "price_change_30d_scaled")
      | none => (none, "no_price_changes")

/-- `calculate_proxy_volatility` (lines 225–305): weighted combination of
price uncertainty (0.5), volume factor (0.3) and time factor (0.2),
clamped to `[0, 1]`. Always returns a score; the `except` clause (again
outside the pre-parsed model) would also return a score, `(0.0,
"proxy_error")`. Metadata omitted. -/
noncomputable def calculate_proxy_volatility (market : VolMarket) :
    Option ℝ × String :=
  let outcome_prices :=
    if market.outcomePricesCamel.isEmpty then market.outcomePricesSnake
    else market.outcomePricesCamel
  if outcome_prices.isEmpty then (some 0, "proxy_no_data")
  else
    let prices := outcome_prices
    let price_uncertainty : ℝ :=
      if prices.length = 2 then
        let primary_price := prices.headD 0
        let distance_from_extreme := min primary_price (1 - primary_price)
        ((distance_from_extreme * 2 : ℚ) : ℝ)
      else
        if 0 < prices.sum then
          let normalized_prices := prices.map (fun p => p / prices.sum)
          let entropy : ℝ :=
            -(((normalized_prices.filter (fun p => decide (0 < p))).map
                (fun p => (p : ℝ) * Real.log ((p : ℝ) + 1 / 10 ^ 10))).sum)
          let max_entropy : ℝ := Real.log (prices.length : ℝ)
          if 0 < max_entropy then entropy / max_entropy else 0
        else 0
    let volume_factor : ℝ :=
      if 0 < market.volume then
        min (Real.logb 10 ((market.volume : ℝ) + 1) / Real.logb 10 10000000) 1
      else 0
    let time_factor : ℝ :=
      match market.endDate with
      | none => 1/2
      | some none => 1/2
      | some (some days_until_close) =>
        if days_until_close < 1 then 9/10
        else if days_until_close < 7 then 7/10
        else if days_until_close < 30 then 1/2
        else 3/10
    let volatility_score :=
      price_uncertainty * (1/2) + volume_factor * (3/10) + time_factor * (1/5)
    let volatility_score := max 0 (min 1 volatility_score)
    (some (round4 volatility_score), "proxy")

/-- The per-market volatility selection of the migration script
`scripts/migrate_volatility.py` (lines 86–102): the stored score and
method come from `calculate_volatility_from_price_changes` when it yields
a score, and from `calculate_proxy_volatility` otherwise. No caller in the
sources invokes `calculate_true_volatility_24h`. -/
noncomputable def migrate_volatility_choice (market : VolMarket) :
    Option ℝ × String :=
  let r := calculate_volatility_from_price_changes market
  match r.1 with
  | some _ => r
  | none => calculate_proxy_volatility market

/-- Modelled from the spec: the §4.4/§8 selection policy for "the best
available volatility" — try the historical-series method first, fall back
to price changes on `None`, then to the proxy. No code under `src/`
implements this policy; this definition follows the spec's words for
comparison with `migrate_volatility_choice`. -/
noncomputable def specSelectBestVolatility
    (historical : Option ℝ × String) (market : VolMarket) :
    Option ℝ × String :=
  match historical.1 with
  | some _ => historical
  | none =>
    match (calculate_volatility_from_price_changes market).1 with
    | some _ => calculate_volatility_from_price_changes market
    | none => calculate_proxy_volatility market

end Polymarket

/-! ## Concrete fixtures used by counterexamples and witnesses. -/

namespace RelationService

/-- Two-market environment: market 1 has one similarity candidate
(market 2, similarity 1); market 2 has none. Both markets share the
outcome prices `[1, 0]`, so their correlation is `1`. -/
def envTwoMarkets : Env where
  getMarketById := fun i =>
    if i = 1 ∨ i = 2 then some ⟨[1, 0], some 100⟩ else none
  findSimilar := fun i _ => if i = 1 then [(2, 1)] else []

/-- Failure environment: every market resolves and market 1 has a
candidate, but the relation-store query of `get_related_markets`
raises. -/
def fenvRelatedFails : FEnv where
  getMarketById := fun _ => .ok (some ⟨[1, 0], some 10⟩)
  findSimilar := fun _ _ => .ok [(2, 1)]
  relatedQueryFails := fun _ => true
  upsertFails := fun _ _ => false

end RelationService

namespace Polymarket

/-- A market dict carrying only a 24-hour price change (of a full point,
`1.0`). -/
def marketDayChange : VolMarket := { oneDayCamel := some 1 }

end Polymarket

/-! ## Supporting lemmas. -/

namespace MarketAnalysis

@[simp] theorem ScenarioProbs.sum_mk (a b c d : ℚ) :
    (ScenarioProbs.mk a b c d).sum = a + b + c + d := rfl

theorem pBothClamped_nonneg (p1 p2 c : ℚ) : 0 ≤ pBothClamped p1 p2 c :=
  le_max_left 0 _

theorem pBothClamped_le_left (p1 p2 c : ℚ) (h1 : 0 ≤ p1) (h2 : 0 ≤ p2) :
    pBothClamped p1 p2 c ≤ p1 :=
  (max_le (le_min h1 h2) (min_le_right _ _)).trans (min_le_left p1 p2)

theorem pBothClamped_le_right (p1 p2 c : ℚ) (h1 : 0 ≤ p1) (h2 : 0 ≤ p2) :
    pBothClamped p1 p2 c ≤ p2 :=
  (max_le (le_min h1 h2) (min_le_right _ _)).trans (min_le_right p1 p2)

end MarketAnalysis

/-! ## Claim theorems. -/

open MarketAnalysis RelationService Polymarket

/-- C1: for `priceA = 0.9`, `priceB = 0.1`, `correlation = 0.95`, the
expected-value calculation takes the positive-dependence branch
(`priceA + priceB = 1` is not `> 1` while `correlation > 0.8`), computes
`pBoth = 0.9·0.1·1.95 = 0.1755` clamped to `min(0.9, 0.1) = 0.1`, derives
`p1Only = 0.8`, `p2Only = 0`, `pNeither = 0.1`, assigns the arbitrage
strategy `EV = 1 − ((1 − 0.9) + 0.1) = 0.8`, and selects arbitrage as the
best strategy. -/
theorem C1_expected_value_example :
    ¬ (1 < (9/10 : ℚ) + 1/10) ∧ ((4/5 : ℚ) < 19/20) ∧
    pBothRaw (9/10) (1/10) (19/20) = 351/2000 ∧
    pBothClamped (9/10) (1/10) (19/20) = 1/10 ∧
    scenarioProbs (9/10) (1/10) (19/20) = ⟨1/10, 4/5, 0, 1/10⟩ ∧
    (expectedValues (9/10) (1/10) (19/20)).evArbitrage = 4/5 ∧
    bestStrategy (9/10) (1/10) (19/20) = (.arbitrage, 4/5) := by
  refine ⟨by norm_num, by norm_num, ?_, ?_, ?_, ?_, ?_⟩
  · norm_num [pBothRaw]
  · norm_num [pBothClamped, pBothRaw, min_def, max_def]
  · norm_num [scenarioProbs, pBothClamped, pBothRaw, min_def, max_def, abs]
  · norm_num [expectedValues, scenarioProbs, pBothClamped, pBothRaw, min_def,
      max_def, abs]
  · norm_num [bestStrategy, pickBest, strategyList, expectedValues,
      scenarioProbs, pBothClamped, pBothRaw, min_def, max_def, abs]

/-- C2 counterexample: at `priceA = priceB = 0.55`,
`correlation = 901/1100 ≈ 0.819` (all inside the declared domain), the
floored scenario probabilities sum to `2001/2000`; the deviation `1/2000 =
5·10⁻⁴` is below the `0.001` renormalization trigger, so it survives —
and it exceeds the claimed `10⁻⁶` tolerance. -/
theorem C2_sum_counterexample :
    (0:ℚ) ≤ 11/20 ∧ (11/20:ℚ) ≤ 1 ∧ (0:ℚ) ≤ 901/1100 ∧ (901/1100:ℚ) ≤ 1 ∧
    (scenarioProbs (11/20) (11/20) (901/1100)).sum = 2001/2000 ∧
    ¬ |(scenarioProbs (11/20) (11/20) (901/1100)).sum - 1| ≤ 1/1000000 := by
  refine ⟨by norm_num, by norm_num, by norm_num, by norm_num, ?_, ?_⟩
  · norm_num [scenarioProbs, pBothClamped, pBothRaw, min_def, max_def,
      ScenarioProbs.sum, abs]
  · norm_num [scenarioProbs, pBothClamped, pBothRaw, min_def, max_def,
      ScenarioProbs.sum, abs]

/-- C2 (amended): for `priceA, priceB, correlation ∈ [0, 1]`, the four
scenario probabilities after flooring and conditional renormalization sum
to 1 within `10⁻³` (the renormalization fires only when the deviation
exceeds `0.001`, so deviations up to `0.001` remain; `10⁻⁶` is not
guaranteed). -/
theorem C2_sum_within_1e3 (p1 p2 c : ℚ)
    (hp1 : 0 ≤ p1) (hp1' : p1 ≤ 1) (hp2 : 0 ≤ p2) (hp2' : p2 ≤ 1)
    (hc : 0 ≤ c) (hc' : c ≤ 1) :
    |(scenarioProbs p1 p2 c).sum - 1| ≤ 1/1000 := by
  have hpbl : pBothClamped p1 p2 c ≤ p1 := pBothClamped_le_left p1 p2 c hp1 hp2
  have hpbr : pBothClamped p1 p2 c ≤ p2 := pBothClamped_le_right p1 p2 c hp1 hp2
  simp only [scenarioProbs]
  rw [max_eq_right (sub_nonneg.mpr hpbl), max_eq_right (sub_nonneg.mpr hpbr)]
  rcases le_or_lt 0
      (1 - pBothClamped p1 p2 c - (p1 - pBothClamped p1 p2 c) -
        (p2 - pBothClamped p1 p2 c)) with hpn | hpn
  · rw [max_eq_right hpn]
    have hT1 : pBothClamped p1 p2 c + (p1 - pBothClamped p1 p2 c) +
        (p2 - pBothClamped p1 p2 c) +
        (1 - pBothClamped p1 p2 c - (p1 - pBothClamped p1 p2 c) -
          (p2 - pBothClamped p1 p2 c)) = 1 := by ring
    split_ifs with hcond
    · rw [hT1] at hcond
      norm_num at hcond
    · simp only [ScenarioProbs.sum_mk]
      rw [hT1]
      norm_num
  · rw [max_eq_left hpn.le]
    have hA : 0 < pBothClamped p1 p2 c + (p1 - pBothClamped p1 p2 c) +
        (p2 - pBothClamped p1 p2 c) + 0 := by linarith
    split_ifs with hcond
    · simp only [ScenarioProbs.sum_mk]
      rw [div_add_div_same, div_add_div_same, div_add_div_same,
        div_self (ne_of_gt hA)]
      norm_num
    · simp only [ScenarioProbs.sum_mk]
      push_neg at hcond
      exact hcond hA

/-- C2 witness: the amended bound instantiated at
`priceA = 0.9, priceB = 0.1, correlation = 0.95`. -/
theorem C2_sum_within_1e3_witness :
    |(scenarioProbs (9/10) (1/10) (19/20)).sum - 1| ≤ 1/1000 :=
  C2_sum_within_1e3 (9/10) (1/10) (19/20) (by norm_num) (by norm_num)
    (by norm_num) (by norm_num) (by norm_num) (by norm_num)

namespace RelationService

theorem keyMatches_self (r : Row) :
    r.keyMatches r.market_id_1 r.market_id_2 = true := by
  simp [Row.keyMatches]

theorem countKey_upsertRow (store : Store) (r : Row)
    (h : countKey store r.market_id_1 r.market_id_2 ≤ 1) :
    countKey (upsertRow store r) r.market_id_1 r.market_id_2 = 1 := by
  unfold upsertRow countKey at *
  by_cases hany : store.any (·.keyMatches r.market_id_1 r.market_id_2)
  · rw [if_pos hany, List.countP_map]
    have heq : ∀ x ∈ store,
        (((fun y => y.keyMatches r.market_id_1 r.market_id_2) ∘
          fun y => if y.keyMatches r.market_id_1 r.market_id_2 then r else y) x
            = true ↔
          x.keyMatches r.market_id_1 r.market_id_2 = true) := by
      intro x _
      by_cases hx : x.keyMatches r.market_id_1 r.market_id_2
      · simp [Function.comp, hx, keyMatches_self]
      · simp [Function.comp, hx]
    rw [List.countP_congr heq]
    have hpos : 0 < store.countP (·.keyMatches r.market_id_1 r.market_id_2) := by
      rw [List.countP_pos_iff]
      obtain ⟨x, hx, hpx⟩ := List.any_eq_true.mp hany
      exact ⟨x, hx, hpx⟩
    omega
  · rw [if_neg hany, List.countP_append]
    have h0 : store.countP (·.keyMatches r.market_id_1 r.market_id_2) = 0 := by
      rw [List.countP_eq_zero]
      intro a ha hpa
      exact hany (List.any_eq_true.mpr ⟨a, ha, hpa⟩)
    simp [h0, List.countP_cons, keyMatches_self]

theorem length_upsertRow_of_present (store : Store) (r : Row)
    (h : 0 < countKey store r.market_id_1 r.market_id_2) :
    (upsertRow store r).length = store.length := by
  unfold upsertRow
  have hany : store.any (·.keyMatches r.market_id_1 r.market_id_2) := by
    unfold countKey at h
    rw [List.countP_pos_iff] at h
    obtain ⟨x, hx, hpx⟩ := h
    exact List.any_eq_true.mpr ⟨x, hx, hpx⟩
  rw [if_pos hany, List.length_map]

theorem volumeFactor_ge (a : ℚ) : (1:ℝ)/10 ≤ volumeFactor a := by
  unfold volumeFactor
  split_ifs
  · exact le_refl _
  · exact le_max_left _ _

theorem volumeFactor_nonneg (a : ℚ) : (0:ℝ) ≤ volumeFactor a :=
  le_trans (by norm_num) (volumeFactor_ge a)

theorem volumeFactor_mono {a b : ℚ} (hab : a ≤ b) :
    volumeFactor a ≤ volumeFactor b := by
  unfold volumeFactor
  split_ifs with ha hb hb
  · exact le_refl _
  · exact le_max_left _ _
  · push_neg at ha
    exact absurd (hab.trans hb) (not_le.mpr ha)
  · apply max_le_max le_rfl
    apply min_le_min le_rfl
    push_neg at ha hb
    have hden : 0 < Real.log (1 + (1000000:ℝ)) := Real.log_pos (by norm_num)
    apply (div_le_div_iff_of_pos_right hden).mpr
    have h1 : (0:ℝ) < 1 + (a:ℝ) := by
      have : (0:ℝ) < (a:ℝ) := by exact_mod_cast ha
      linarith
    have h2 : (1:ℝ) + (a:ℝ) ≤ 1 + (b:ℝ) := by
      have : (a:ℝ) ≤ (b:ℝ) := by exact_mod_cast hab
      linarith
    exact Real.log_le_log h1 h2

end RelationService

/-- C6: `create_relation` resolves `(a, b)` and `(b, a)` to the same stored
row keyed by the canonical pair `(min a b, max a b)`, and upserting on that
canonical key yields exactly one row for the unordered pair — replacing a
previously existing row in place (the store size does not grow) instead of
duplicating it. The hypothesis is the store invariant that at most one row
exists per canonical key. -/
theorem C6_create_relation_canonical (store : Store) (a b : ℕ)
    (similarity correlation : ℚ) (pressure : ℝ)
    (hwf : countKey store (min a b) (max a b) ≤ 1) :
    create_relation store a b similarity correlation pressure =
      create_relation store b a similarity correlation pressure ∧
    countKey (create_relation store a b similarity correlation pressure)
      (min a b) (max a b) = 1 ∧
    (0 < countKey store (min a b) (max a b) →
      (create_relation store a b similarity correlation pressure).length =
        store.length) := by
  refine ⟨?_, ?_, ?_⟩
  · unfold create_relation
    rw [min_comm b a, max_comm b a]
  · exact countKey_upsertRow store _ hwf
  · intro h
    exact length_upsertRow_of_present store _ h

/-- C6 witness: upserting `(5, 2, …)` into the empty store resolves to the
same row as upserting `(2, 5, …)`, keyed `(2, 5)`. -/
theorem C6_create_relation_canonical_witness :
    create_relation [] 5 2 (9/10) 1 0 = create_relation [] 2 5 (9/10) 1 0 ∧
    countKey (create_relation [] 5 2 (9/10) 1 0) (min 5 2) (max 5 2) = 1 := by
  have h := C6_create_relation_canonical [] 5 2 (9/10) 1 0
    (by norm_num [countKey])
  exact ⟨h.1, h.2.1⟩

/-- C7: `calculate_pressure` is monotonically non-decreasing in its
similarity argument, its correlation argument, and the average of its two
volume arguments, each with the other inputs held fixed, over
similarity, correlation ∈ [0, 1] and non-negative volumes. -/
theorem C7_pressure_monotone :
    (∀ (s s' c : ℝ) (v1 v2 : ℚ), 0 ≤ s → s ≤ s' → s' ≤ 1 → 0 ≤ c → c ≤ 1 →
        0 ≤ v1 → 0 ≤ v2 →
        calculate_pressure s c v1 v2 ≤ calculate_pressure s' c v1 v2) ∧
    (∀ (s c c' : ℝ) (v1 v2 : ℚ), 0 ≤ s → s ≤ 1 → 0 ≤ c → c ≤ c' → c' ≤ 1 →
        0 ≤ v1 → 0 ≤ v2 →
        calculate_pressure s c v1 v2 ≤ calculate_pressure s c' v1 v2) ∧
    (∀ (s c : ℝ) (v1 v2 w1 w2 : ℚ), 0 ≤ s → s ≤ 1 → 0 ≤ c → c ≤ 1 →
        0 ≤ v1 → 0 ≤ v2 → 0 ≤ w1 → 0 ≤ w2 →
        (v1 + v2) / 2 ≤ (w1 + w2) / 2 →
        calculate_pressure s c v1 v2 ≤ calculate_pressure s c w1 w2) := by
  refine ⟨?_, ?_, ?_⟩
  · intro s s' c v1 v2 hs0 hss' _ hc0 _ _ _
    unfold calculate_pressure
    apply max_le_max le_rfl
    apply min_le_min le_rfl
    exact mul_le_mul_of_nonneg_right
      (mul_le_mul_of_nonneg_right hss' hc0) (volumeFactor_nonneg _)
  · intro s c c' v1 v2 hs0 _ hc0 hcc' _ _ _
    unfold calculate_pressure
    apply max_le_max le_rfl
    apply min_le_min le_rfl
    exact mul_le_mul_of_nonneg_right
      (mul_le_mul_of_nonneg_left hcc' hs0) (volumeFactor_nonneg _)
  · intro s c v1 v2 w1 w2 hs0 _ hc0 _ _ _ _ _ havg
    unfold calculate_pressure
    apply max_le_max le_rfl
    apply min_le_min le_rfl
    exact mul_le_mul_of_nonneg_left (volumeFactor_mono havg)
      (mul_nonneg hs0 hc0)

/-- C7 witness: the three monotonicity parts instantiated at concrete
inputs. -/
theorem C7_pressure_monotone_witness :
    calculate_pressure 0 (1/2) 3 5 ≤ calculate_pressure (1/2) (1/2) 3 5 ∧
    calculate_pressure (1/2) 0 3 5 ≤ calculate_pressure (1/2) (1/2) 3 5 ∧
    calculate_pressure (1/2) (1/2) 3 5 ≤ calculate_pressure (1/2) (1/2) 7 9 :=
  ⟨C7_pressure_monotone.1 0 (1/2) (1/2) 3 5 (by norm_num) (by norm_num)
      (by norm_num) (by norm_num) (by norm_num) (by norm_num) (by norm_num),
   C7_pressure_monotone.2.1 (1/2) 0 (1/2) 3 5 (by norm_num) (by norm_num)
      (by norm_num) (by norm_num) (by norm_num) (by norm_num) (by norm_num),
   C7_pressure_monotone.2.2 (1/2) (1/2) 3 5 7 9 (by norm_num) (by norm_num)
      (by norm_num) (by norm_num) (by norm_num) (by norm_num) (by norm_num)
      (by norm_num) (by norm_num)⟩

namespace Polymarket

theorem round_mono_real {x y : ℝ} (h : x ≤ y) : round x ≤ round y := by
  rw [round_eq, round_eq]
  exact Int.floor_le_floor (by linarith)

theorem round4_nonneg {x : ℝ} (h : 0 ≤ x) : 0 ≤ round4 x := by
  unfold round4
  have h1 : (0:ℤ) ≤ round (x * 10000) := by
    have h2 : round ((0:ℝ)) ≤ round (x * 10000) := round_mono_real (by nlinarith)
    simpa using h2
  have h3 : (0:ℝ) ≤ ((round (x * 10000) : ℤ) : ℝ) := by exact_mod_cast h1
  positivity

theorem round4_le_one {x : ℝ} (h : x ≤ 1) : round4 x ≤ 1 := by
  unfold round4
  rw [div_le_one (by norm_num)]
  have h2 : round (x * 10000) ≤ round ((10000:ℝ)) := round_mono_real (by nlinarith)
  have h3 : round ((10000:ℝ)) = 10000 := by
    simp [round_ofNat]
  rw [h3] at h2
  exact_mod_cast h2

/-- The proxy method always yields a score in `[0, 1]`. -/
theorem proxy_returns_score (market : VolMarket) :
    ∃ v : ℝ, (calculate_proxy_volatility market).1 = some v ∧
      0 ≤ v ∧ v ≤ 1 := by
  simp only [calculate_proxy_volatility]
  split_ifs <;>
    first
      | exact ⟨0, rfl, le_refl 0, zero_le_one⟩
      | exact ⟨_, rfl, round4_nonneg (le_max_left 0 _),
          round4_le_one (max_le zero_le_one (min_le_left 1 _))⟩

end Polymarket

/-- C5 counterexample: a fetched history of two entries whose prices are
both `0` passes the sample-count checks but produces no valid log return;
the method then returns a `None` score with the tag `"no_valid_returns"`,
which is not in the claimed tag set
`{"insufficient_data", "not_found", "http_error", "error"}`. -/
theorem C5_fail_soft_counterexample :
    calculate_true_volatility_24h (.ok [some 0, some 0]) =
      (none, "no_valid_returns") ∧
    "no_valid_returns" ∉
      (["insufficient_data", "not_found", "http_error", "error"] :
        List String) := by
  constructor
  · rfl
  · decide

/-- C5 (amended): the historical-series method never raises past its
boundary; whenever it returns a `None` score the method tag is drawn from
`{"insufficient_data", "not_found", "http_error", "error",
"no_valid_returns"}` — the all-zero-or-negative-prices case carries its own
tag `"no_valid_returns"`, which the claim's four-element set omitted. -/
theorem C5_fail_soft_tags (fetch : FetchResult)
    (h : (calculate_true_volatility_24h fetch).1 = none) :
    (calculate_true_volatility_24h fetch).2 ∈
      ["insufficient_data", "not_found", "http_error", "error",
       "no_valid_returns"] := by
  cases fetch with
  | notFound => simp [calculate_true_volatility_24h]
  | httpError => simp [calculate_true_volatility_24h]
  | failure => simp [calculate_true_volatility_24h]
  | ok history =>
    simp only [calculate_true_volatility_24h] at h ⊢
    split_ifs at h ⊢ <;> simp_all

/-- C5 witness: the amended tag property at an HTTP 404 outcome. -/
theorem C5_fail_soft_tags_witness :
    (calculate_true_volatility_24h .notFound).2 ∈
      ["insufficient_data", "not_found", "http_error", "error",
       "no_valid_returns"] :=
  C5_fail_soft_tags .notFound rfl

/-- C9: each of the three volatility methods returns either no score or a
score in `[0, 1]`; the proxy method always returns a score in `[0, 1]` and
never returns `None`. -/
theorem C9_scores_in_unit_interval :
    (∀ (fetch : FetchResult) (v : ℝ),
      (calculate_true_volatility_24h fetch).1 = some v → 0 ≤ v ∧ v ≤ 1) ∧
    (∀ (market : VolMarket) (v : ℝ),
      (calculate_volatility_from_price_changes market).1 = some v →
        0 ≤ v ∧ v ≤ 1) ∧
    (∀ market : VolMarket,
      ∃ v : ℝ, (calculate_proxy_volatility market).1 = some v ∧
        0 ≤ v ∧ v ≤ 1) := by
  refine ⟨?_, ?_, proxy_returns_score⟩
  · intro fetch v h
    cases fetch with
    | notFound => simp [calculate_true_volatility_24h] at h
    | httpError => simp [calculate_true_volatility_24h] at h
    | failure => simp [calculate_true_volatility_24h] at h
    | ok history =>
      simp only [calculate_true_volatility_24h] at h
      split_ifs at h <;> simp_all
      subst h
      refine ⟨round4_nonneg (le_min ?_ zero_le_one),
        round4_le_one (min_le_right _ 1)⟩
      positivity
  · intro market v h
    simp only [calculate_volatility_from_price_changes] at h
    rcases h1 : pyOr market.oneDayCamel market.oneDaySnake with _ | c
    · rw [h1] at h
      rcases h2 : pyOr market.oneWeekCamel market.oneWeekSnake with _ | c
      · rw [h2] at h
        rcases h3 : pyOr market.oneMonthCamel market.oneMonthSnake with _ | c
        · rw [h3] at h
          simp at h
        · rw [h3] at h
          simp only [Option.some.injEq] at h
          subst h
          refine ⟨round4_nonneg (le_min ?_ zero_le_one),
            round4_le_one (min_le_right _ 1)⟩
          positivity
      · rw [h2] at h
        simp only [Option.some.injEq] at h
        subst h
        refine ⟨round4_nonneg (le_min ?_ zero_le_one),
          round4_le_one (min_le_right _ 1)⟩
        positivity
    · rw [h1] at h
      simp only [Option.some.injEq] at h
      subst h
      refine ⟨round4_nonneg (le_min ?_ zero_le_one),
        round4_le_one (min_le_right _ 1)⟩
      positivity

/-- C9 witness: the three parts instantiated — a two-sample positive-price
history, a market with a 24h change field, and the proxy on the same
market. -/
theorem C9_scores_in_unit_interval_witness :
    (∃ v : ℝ,
      (calculate_true_volatility_24h (.ok [some 1, some 1])).1 = some v ∧
        0 ≤ v ∧ v ≤ 1) ∧
    (∃ v : ℝ,
      (calculate_volatility_from_price_changes marketDayChange).1 = some v ∧
        0 ≤ v ∧ v ≤ 1) ∧
    (∃ v : ℝ, (calculate_proxy_volatility marketDayChange).1 = some v ∧
        0 ≤ v ∧ v ≤ 1) :=
  ⟨⟨_, rfl, C9_scores_in_unit_interval.1 (.ok [some 1, some 1]) _ rfl⟩,
   ⟨_, rfl, C9_scores_in_unit_interval.2.1 marketDayChange _ rfl⟩,
   C9_scores_in_unit_interval.2.2 marketDayChange⟩

/-- C3 counterexample: the only volatility-selecting caller in the sources
(`migrate_volatility`, lines 86–102) never consults the historical-series
method. For a market with a 24-hour price-change field, the spec's
try-historical-first policy would report the historical score (method
`"price_history"`, here `0.5`), but the code's caller reports the
price-change result (`"price_change_24h"`) — the two selections differ. -/
theorem C3_selection_counterexample :
    specSelectBestVolatility (some (1/2), "price_history") marketDayChange ≠
      migrate_volatility_choice marketDayChange ∧
    (specSelectBestVolatility (some (1/2), "price_history")
        marketDayChange).2 = "price_history" ∧
    (migrate_volatility_choice marketDayChange).2 = "price_change_24h" := by
  refine ⟨?_, rfl, rfl⟩
  intro h
  exact absurd (congrArg Prod.snd h) (by decide)

/-- C3 (amended): the volatility-selecting caller in the sources (the
migration script) tries the price-change fallback method first; only if it
returns a `None` score does the caller use the proxy method, which is
guaranteed to return a score. The historical-series method is not invoked
by any caller in the sources. -/
theorem C3_fallback_policy (market : VolMarket) :
    ((calculate_volatility_from_price_changes market).1 = none →
      migrate_volatility_choice market = calculate_proxy_volatility market) ∧
    (∀ v : ℝ, (calculate_volatility_from_price_changes market).1 = some v →
      migrate_volatility_choice market =
        calculate_volatility_from_price_changes market) ∧
    (∃ v : ℝ, (migrate_volatility_choice market).1 = some v) := by
  refine ⟨?_, ?_, ?_⟩
  · intro h
    simp only [migrate_volatility_choice]
    rw [h]
  · intro v h
    simp only [migrate_volatility_choice]
    rw [h]
  · rcases h : (calculate_volatility_from_price_changes market).1 with _ | v
    · obtain ⟨w, hw, _, _⟩ := proxy_returns_score market
      refine ⟨w, ?_⟩
      simp only [migrate_volatility_choice]
      rw [h]
      exact hw
    · refine ⟨v, ?_⟩
      simp only [migrate_volatility_choice]
      rw [h]
      exact h

/-- C3 witness: the amended fallback order at a market with no change
fields (proxy used) and at one with a 24h change (price-change used). -/
theorem C3_fallback_policy_witness :
    migrate_volatility_choice {} = calculate_proxy_volatility {} ∧
    migrate_volatility_choice marketDayChange =
      calculate_volatility_from_price_changes marketDayChange ∧
    ∃ v : ℝ, (migrate_volatility_choice {}).1 = some v :=
  ⟨(C3_fallback_policy {}).1 rfl,
   (C3_fallback_policy marketDayChange).2.1 _ rfl,
   (C3_fallback_policy {}).2.2⟩

/-- C10: whenever an exception escapes the per-market discovery logic of
`create_relations_for_market`, the function returns `(created = 0,
skipped = 0)` with the store as it stood at the failure — in this model
provably the input store, since every store mutation happens inside
`create_relations_batch`, whose per-item handler converts upsert failures
into `failed` counts instead of raising. The returned totals therefore
never describe work committed before the failure. -/
theorem C10_exception_zero_totals (fenv : FEnv) (store : Store)
    (market_id : ℕ) (similarity_threshold correlation_threshold : ℚ)
    (limit : ℕ) (e : Unit)
    (h : discoverBody fenv store market_id similarity_threshold
        correlation_threshold limit = .error e) :
    create_relations_for_marketF fenv store market_id similarity_threshold
      correlation_threshold limit = (store, 0, 0) := by
  unfold create_relations_for_marketF
  rw [h]

/-- C10 witness: an environment whose relation-store query raises after the
market and its candidates were fetched; the wrapper reports `(0, 0)` on the
unchanged store. -/
theorem C10_exception_zero_totals_witness :
    discoverBody fenvRelatedFails [] 1 0 0 100 = .error () ∧
    create_relations_for_marketF fenvRelatedFails [] 1 0 0 100 =
      ([], 0, 0) := by
  have h : discoverBody fenvRelatedFails [] 1 0 0 100 = .error () := rfl
  exact ⟨h, C10_exception_zero_totals fenvRelatedFails [] 1 0 0 100 () h⟩

/-- C4 counterexample: with `sample_size = 2 ≥ 2` markets, no sampling is
applied and `is_sampled = false`, yet `estimated_total = 2` while a full
pass of the relation-creation logic over the same inputs creates exactly 1
relation. Market 2 yields no similarity candidates, so the estimation loop
does not count it as processed and extrapolates market 1's single relation
to both markets. -/
theorem C4_estimate_vs_full_pass_counterexample :
    (estimate_relations_count envTwoMarkets [] [1, 2] 0 0 (some 2)
        (fun l _ => l)).is_sampled = false ∧
    (estimate_relations_count envTwoMarkets [] [1, 2] 0 0 (some 2)
        (fun l _ => l)).estimated_total = 2 ∧
    (fullPass envTwoMarkets [] [1, 2] 0 0 100).2.1 = 1 ∧
    ¬ ((estimate_relations_count envTwoMarkets [] [1, 2] 0 0 (some 2)
        (fun l _ => l)).estimated_total =
      ((fullPass envTwoMarkets [] [1, 2] 0 0 100).2.1 : ℤ)) := by
  have h10 : ¬([1, 0] : List ℚ) = [] := by decide
  have h2 : (estimate_relations_count envTwoMarkets [] [1, 2] 0 0 (some 2)
      (fun l _ => l)).estimated_total = 2 := by
    norm_num [estimate_relations_count, estimateScan, potentialRelations,
      find_similar_markets_for_relation, get_related_markets, touching,
      sortBySimDesc, insertBySim, calculate_correlation, envTwoMarkets,
      List.filter_cons, List.filter_nil, List.foldl_cons, List.foldl_nil,
      List.contains, min_def, max_def, abs, h10, Int.floor_ofNat]
  have h3 : (fullPass envTwoMarkets [] [1, 2] 0 0 100).2.1 = 1 := by
    norm_num [fullPass, create_relations_for_market, candidateStep,
      create_relations_batch, create_relation, upsertRow, Row.keyMatches,
      find_similar_markets_for_relation, get_related_markets, touching,
      sortBySimDesc, insertBySim, calculate_correlation, envTwoMarkets,
      List.filter_cons, List.filter_nil, List.foldl_cons, List.foldl_nil,
      List.contains, min_def, max_def, abs, h10]
  refine ⟨?_, h2, h3, ?_⟩
  · norm_num [estimate_relations_count]
  · rw [h2, h3]
    norm_num

/-- C4 (amended): when `sample_size ≥` the number of markets,
`estimate_relations_count` reports `is_sampled = false` and applies no
sampling — its result coincides with the explicitly unsampled run — and
its `estimated_total` equals the scan's exact relation count
(`sample_relations`) whenever every listed market was processed (resolved
and produced at least one similarity candidate). `estimated_total` need
not equal the count of a full creation pass: markets yielding no
candidates are excluded from the extrapolation average, and a full pass
also skips pairs created earlier in the same pass. -/
theorem C4_estimate_unsampled (env : Env) (store : Store)
    (market_ids : List ℕ) (similarity_threshold correlation_threshold : ℚ)
    (n : ℕ) (sampler : List ℕ → ℕ → List ℕ)
    (hn : market_ids.length ≤ n) :
    (estimate_relations_count env store market_ids similarity_threshold
        correlation_threshold (some n) sampler).is_sampled = false ∧
    estimate_relations_count env store market_ids similarity_threshold
        correlation_threshold (some n) sampler =
      estimate_relations_count env store market_ids similarity_threshold
        correlation_threshold none sampler ∧
    ((estimate_relations_count env store market_ids similarity_threshold
        correlation_threshold (some n) sampler).sampled_markets =
      market_ids.length →
      (estimate_relations_count env store market_ids similarity_threshold
        correlation_threshold (some n) sampler).estimated_total =
        ((estimate_relations_count env store market_ids similarity_threshold
          correlation_threshold (some n) sampler).sample_relations : ℤ)) := by
  have hlt : ¬ n < market_ids.length := not_lt.mpr hn
  have hcond : ¬ (n ≠ 0 ∧ n < market_ids.length) := fun hc => hlt hc.2
  refine ⟨?_, ?_, ?_⟩
  · simp [estimate_relations_count, hlt]
  · simp [estimate_relations_count, hcond, hlt]
  · intro hp
    simp only [estimate_relations_count, if_neg hcond] at hp ⊢
    set s := estimateScan env store similarity_threshold
      correlation_threshold market_ids with hs
    by_cases h0 : 0 < s.2
    · rw [if_pos h0, if_pos h0]
      rw [hp] at h0 ⊢
      have hlen : ((market_ids.length : ℚ)) ≠ 0 := by
        exact_mod_cast Nat.pos_iff_ne_zero.mp h0
      rw [div_mul_cancel₀ _ hlen]
      exact Int.floor_natCast _
    · rw [if_neg h0]
      have h2 : s.2 = 0 := Nat.eq_zero_of_not_pos h0
      rw [hp] at h2
      have hnil : market_ids = [] := List.length_eq_zero.mp h2
      rw [hs, hnil]
      rfl

/-- C4 witness: the amended statement at the two-market environment with
`sample_size = 2`, plus the exact-equality conclusion at the one-market
list (where every market is processed). -/
theorem C4_estimate_unsampled_witness :
    (estimate_relations_count envTwoMarkets [] [1, 2] 0 0 (some 2)
        (fun l _ => l)).is_sampled = false ∧
    estimate_relations_count envTwoMarkets [] [1, 2] 0 0 (some 2)
        (fun l _ => l) =
      estimate_relations_count envTwoMarkets [] [1, 2] 0 0 none
        (fun l _ => l) ∧
    (estimate_relations_count envTwoMarkets [] [1] 0 0 (some 1)
        (fun l _ => l)).estimated_total =
      ((estimate_relations_count envTwoMarkets [] [1] 0 0 (some 1)
        (fun l _ => l)).sample_relations : ℤ) := by
  have h10 : ¬([1, 0] : List ℚ) = [] := by decide
  refine ⟨(C4_estimate_unsampled envTwoMarkets [] [1, 2] 0 0 2
      (fun l _ => l) (by norm_num)).1,
    (C4_estimate_unsampled envTwoMarkets [] [1, 2] 0 0 2
      (fun l _ => l) (by norm_num)).2.1,
    (C4_estimate_unsampled envTwoMarkets [] [1] 0 0 1
      (fun l _ => l) (by norm_num)).2.2 ?_⟩
  norm_num [estimate_relations_count, estimateScan, potentialRelations,
    find_similar_markets_for_relation, get_related_markets, touching,
    sortBySimDesc, insertBySim, calculate_correlation, envTwoMarkets,
    List.filter_cons, List.filter_nil, List.foldl_cons, List.foldl_nil,
    List.contains, min_def, max_def, abs, h10]

namespace Polymarket

theorem evict_head_not_old (time_window now : ℚ) (l : List ℚ) (t0 : ℚ)
    (tl : List ℚ) (h : evict time_window now l = t0 :: tl) :
    ¬ t0 < now - time_window := by
  induction l with
  | nil => simp [evict] at h
  | cons t rest ih =>
    simp only [evict] at h
    split_ifs at h with ht
    · exact ih h
    · injection h with h1 h2
      subst h1
      exact ht

theorem countWindow_le_length (time_window now : ℚ) (l : List ℚ) :
    countWindow time_window now l ≤ l.length :=
  List.length_filter_le _ _

theorem dropLast_append_single {α : Type} (l : List α) (a : α) :
    (l ++ [a]).dropLast = l := by
  simp

/-- Window invariant of a single `acquire` return: if the call did not
land exactly `time_window` after the oldest retained timestamp (the head
of the queue before the new request), the rolling count including the new
request is within `max_requests`. -/
theorem acquire_countWindow (max_requests : ℕ) (time_window eps : ℚ) :
    ∀ (fuel : ℕ) (requests : List ℚ) (now : ℚ) (queue : List ℚ) (t : ℚ),
      acquireAux max_requests time_window eps fuel requests now =
        some (queue, t) →
      queue.dropLast.headD 0 ≠ t - time_window →
      countWindow time_window t queue ≤ max_requests := by
  intro fuel
  induction fuel with
  | zero =>
    intro requests now queue t h _
    simp [acquireAux] at h
  | succ fuel ih =>
    intro requests now queue t h hbd
    simp only [acquireAux] at h
    split_ifs at h with hlen
    · rcases hr : evict time_window now requests with _ | ⟨t0, tl⟩
      · rw [hr] at h
        simp at h
      · rw [hr] at h
        dsimp only at h
        split_ifs at h with hsleep
        · exact ih _ _ _ _ h hbd
        · rw [Option.some.injEq, Prod.mk.injEq] at h
          obtain ⟨hq, ht⟩ := h
          subst hq
          subst ht
          rw [dropLast_append_single] at hbd
          have hev := evict_head_not_old time_window now requests t0 tl hr
          have heq : t0 = now - time_window :=
            le_antisymm (by linarith [not_lt.mp hsleep]) (not_lt.mp hev)
          exact absurd heq (by simpa using hbd)
    · rw [Option.some.injEq, Prod.mk.injEq] at h
      obtain ⟨hq, ht⟩ := h
      subst hq
      subst ht
      calc countWindow time_window now (evict time_window now requests ++ [now])
          ≤ (evict time_window now requests ++ [now]).length :=
            countWindow_le_length _ _ _
        _ = (evict time_window now requests).length + 1 := by simp
        _ ≤ max_requests := by omega

/-- Three back-to-back `acquire` calls on `RateLimiter(2, 1)` starting at
time 0, with wake-up lateness `eps ≥ 0`: the first two return immediately,
the third only at a time `≥ 1`. -/
theorem acquire_three_calls (eps : ℚ) (heps : 0 ≤ eps) :
    acquireAux 2 1 eps 2 [] 0 = some ([0], 0) ∧
    acquireAux 2 1 eps 2 [0] 0 = some ([0, 0], 0) ∧
    ∃ queue t, acquireAux 2 1 eps 2 [0, 0] 0 = some (queue, t) ∧ 1 ≤ t := by
  refine ⟨?_, ?_, ?_⟩
  · norm_num [acquireAux, evict]
  · norm_num [acquireAux, evict]
  · by_cases hpos : 0 < eps
    · refine ⟨[1 + eps], 1 + eps, ?_, by linarith⟩
      norm_num [acquireAux, evict, hpos]
    · have heq : eps = 0 := le_antisymm (not_lt.mp hpos) heps
      subst heq
      refine ⟨[0, 0, 1], 1, ?_, le_refl 1⟩
      norm_num [acquireAux, evict]

end Polymarket

/-- C8 counterexample: a legitimate call history on
`RateLimiter(maxRequests = 2, windowSeconds = 1)` — calls at times 0, 0
and 1 (ideally punctual wake-ups, `eps = 0`). The third call enters
exactly one window after the two recorded requests: the strict `<`
eviction keeps both, the computed sleep time is 0, and the request is
admitted. After it returns at time 1, three recorded timestamps lie
within the trailing window `[0, 1]` — exceeding `maxRequests = 2`. -/
theorem C8_count_exceeded_counterexample :
    acquireAux 2 1 0 1 [] 0 = some ([0], 0) ∧
    acquireAux 2 1 0 1 [0] 0 = some ([0, 0], 0) ∧
    acquireAux 2 1 0 1 [0, 0] 1 = some ([0, 0, 1], 1) ∧
    2 < countWindow 1 1 [0, 0, 1] := by
  refine ⟨?_, ?_, ?_, ?_⟩ <;>
    norm_num [acquireAux, evict, countWindow, List.filter]

/-- C8 (amended): whenever `acquire()` returns at a moment other than
exactly `windowSeconds` after the oldest retained request timestamp, the
rolling count of recorded requests within the trailing window, including
the request about to be issued, is at most `maxRequests`; a call landing
exactly on that boundary can admit one extra request (strict `<` eviction
with `>=` limit check). With `maxRequests = 2` and `windowSeconds = 1`,
three back-to-back `acquire()` calls behave as claimed: the third
suspends until at least 1 second has elapsed since the first call, for
any non-negative wake-up lateness. -/
theorem C8_rate_limiter_window :
    (∀ (max_requests : ℕ) (time_window eps : ℚ) (fuel : ℕ)
        (requests : List ℚ) (now : ℚ) (queue : List ℚ) (t : ℚ),
      acquireAux max_requests time_window eps fuel requests now =
        some (queue, t) →
      queue.dropLast.headD 0 ≠ t - time_window →
      countWindow time_window t queue ≤ max_requests) ∧
    (∀ eps : ℚ, 0 ≤ eps →
      acquireAux 2 1 eps 2 [] 0 = some ([0], 0) ∧
      acquireAux 2 1 eps 2 [0] 0 = some ([0, 0], 0) ∧
      ∃ queue t, acquireAux 2 1 eps 2 [0, 0] 0 = some (queue, t) ∧ 1 ≤ t) :=
  ⟨acquire_countWindow, acquire_three_calls⟩

/-- C8 witness: the window bound at a single fresh call at time 5, and the
three-call scenario with punctual wake-ups. -/
theorem C8_rate_limiter_window_witness :
    countWindow 1 5 [5] ≤ 2 ∧
    (∃ queue t, acquireAux 2 1 0 2 [0, 0] 0 = some (queue, t) ∧ 1 ≤ t) := by
  constructor
  · refine C8_rate_limiter_window.1 2 1 0 1 [] 5 [5] 5 ?_ ?_
    · norm_num [acquireAux, evict]
    · norm_num
  · exact (C8_rate_limiter_window.2 0 (le_refl 0)).2.2
